import Mathlib

set_option maxRecDepth 40000

/-!
Formal model of the Inspectre backend (motion-triggered clip recording,
clip analysis pipeline, semantic search, and answer correlation).

The Python sources embedded here are:
 * backend/camera_service.py  (motion detection loop, recording start/stop,
   recording timer, clip finalization)
 * backend/main.py            (clip processing queue worker)
 * backend/storage_service.py (semantic search over stored analyses)
 * backend/llm_service.py     (answer generation / timestamp correlation)

Python strings are modelled as lists of characters (`PyStr`); the helper
functions below reproduce the exact semantics of the Python `str`
operations used by the sources (`split`, `strip`, `upper`, `startswith`,
`replace`, membership).  All definitions are structural recursions so
that concrete runs reduce inside the kernel.
-/

/-- Python strings, modelled as lists of characters. -/
abbrev PyStr : Type := List Char

/-- Coercion from Lean string literals into the model. -/
def pyOf (s : String) : PyStr := s.data

/-- Characters Python's `str.strip()` removes (ASCII whitespace). -/
def isPySpace (c : Char) : Bool :=
  c == ' ' || c == '\t' || c == '\n' || c == '\r' ||
  c == Char.ofNat 11 || c == Char.ofNat 12

/-- Python `s.strip()`. -/
def pyStrip (s : PyStr) : PyStr :=
  ((List.dropWhile isPySpace s).reverse.dropWhile isPySpace).reverse

/-- ASCII uppercase of one character (Python `str.upper` on ASCII input). -/
def asciiUpper (c : Char) : Char :=
  if 'a' ≤ c ∧ c ≤ 'z' then Char.ofNat (c.toNat - 32) else c

/-- Python `s.upper()` (ASCII). -/
def pyUpper (s : PyStr) : PyStr := s.map asciiUpper

/-- Python `s.startswith(t)`. -/
def pyStartsWith (s t : PyStr) : Bool := decide (List.take t.length s = t)

/-- Worker for `pySplitOn`; `fuel` bounds the recursion and is always
given as the length of the scanned string, which suffices because each
step consumes at least one character. -/
def pySplitOnFuel (sep : PyStr) : Nat → PyStr → PyStr → List PyStr
  | 0, rem, cur => [cur.reverse ++ rem]
  | _ + 1, [], cur => [cur.reverse]
  | fuel + 1, c :: rest, cur =>
    if sep ≠ [] ∧ List.take sep.length (c :: rest) = sep then
      cur.reverse :: pySplitOnFuel sep fuel (List.drop sep.length (c :: rest)) []
    else
      pySplitOnFuel sep fuel rest (c :: cur)

/-- Python `s.split(sep)` for a non-empty separator: splits on every
non-overlapping occurrence, scanning left to right. -/
def pySplitOn (s sep : PyStr) : List PyStr :=
  pySplitOnFuel sep (List.length s) s []

/-- Python `sep in s` for a non-empty separator `sep`. -/
def pyContains (s sep : PyStr) : Bool := decide (1 < (pySplitOn s sep).length)

/-- Python `s.split(sep)[i]`, `none` modelling an `IndexError`. -/
def pySplitIdx (s sep : PyStr) (i : Nat) : Option PyStr :=
  (pySplitOn s sep).get? i

/-- Python `s.split(sep, 1)[0]` (everything before the first occurrence
of `sep`, or all of `s` when `sep` does not occur). -/
def pyBeforeFirst (s sep : PyStr) : PyStr := (pySplitOn s sep).headD []

/-- Python `s.split(sep, 1)[1]` (everything after the first occurrence
of `sep`); `none` modelling the `IndexError` raised when `sep` does not
occur in `s`. -/
def pyAfterFirst (s sep : PyStr) : Option PyStr :=
  match pySplitOn s sep with
  | [] => none
  | [_] => none
  | _ :: rest => some (List.intercalate sep rest)

/-- Python `s.replace(old, new)` for non-empty `old`. -/
def pyReplace (s old new : PyStr) : PyStr :=
  List.intercalate new (pySplitOn s old)

example : pySplitOn (pyOf "a to b") (pyOf "to") = [pyOf "a ", pyOf " b"] := by decide
example : pyStrip (pyOf "  hi  ") = pyOf "hi" := by decide
example : pyUpper (pyOf "found: x") = pyOf "FOUND: X" := by decide
example : pyContains (pyOf "- Time: 1 to 2 | V") (pyOf "Time:") = true := by decide
example : pyReplace (pyOf "a FOUND: b FOUND:") (pyOf "FOUND:") [] = pyOf "a  b " := by decide
example : pyAfterFirst (pyOf "x:y:z") (pyOf ":") = some (pyOf "y:z") := by decide
example : pyBeforeFirst (pyOf "x:y:z") (pyOf ":") = pyOf "x" := by decide
example : pySplitIdx (pyOf "- Time: a Time: b") (pyOf "Time:") 1 = some (pyOf " a ") := by decide

/-!
## Correlator — `llm_service.py`, `LLMService.generate_answer`

The external Answer Service call (`self.client.predict`) is modelled as
an explicit outcome: either a reply string or a raised exception.  The
prompt built from the candidate list is not needed by any claim and is
not modelled; everything from the reply handling onwards (lines 155-251
of `llm_service.py`) is embedded verbatim.
-/

/-- One element of `relevant_contexts` (a ChromaDB hit as consumed by
`generate_answer`): `document` plus the metadata fields it reads. -/
structure Context where
  document : PyStr
  start_time : PyStr
  end_time : PyStr
  video_path : PyStr
  deriving DecidableEq

/-- One entry of the `timestamps` lists built by `generate_answer`. -/
structure TsEntry where
  start : PyStr
  stop : PyStr
  video_path : PyStr
  deriving DecidableEq

/-- One entry of the `relevant_clips` lists built by `generate_answer`. -/
structure ClipEntry where
  video_path : PyStr
  start_time : PyStr
  end_time : PyStr
  analysis : PyStr
  deriving DecidableEq

/-- The dict returned by `generate_answer`. -/
structure GAResult where
  answer : PyStr
  timestamps : List TsEntry
  relevant_clips : List ClipEntry
  deriving DecidableEq

/-- Outcome of the `client.predict` call to the Answer Service. -/
inductive ServiceCall where
  | ok (reply : PyStr)
  | raised (err : PyStr)
  deriving DecidableEq

/-- llm_service.py lines 67-73: keep only the time portion of an ISO
timestamp (`s.split("T")[1].split(".")[0]` when `"T" in s`). -/
def isoTimePart (s : PyStr) : PyStr :=
  if pyContains s (pyOf "T") then
    pyBeforeFirst ((pySplitOn s (pyOf "T")).getD 1 []) (pyOf ".")
  else s

/-- llm_service.py lines 51-89: the `timestamps` list built from the
first `max_clips` contexts. -/
def gaTimestamps (contexts : List Context) (max_clips : Nat) : List TsEntry :=
  (contexts.take max_clips).map fun c =>
    ⟨isoTimePart c.start_time, isoTimePart c.end_time, c.video_path⟩

/-- llm_service.py lines 51-96: the `relevant_clips` list built from the
first `max_clips` contexts. -/
def gaClips (contexts : List Context) (max_clips : Nat) : List ClipEntry :=
  (contexts.take max_clips).map fun c =>
    ⟨c.video_path, isoTimePart c.start_time, isoTimePart c.end_time, c.document⟩

/-- llm_service.py lines 156-159: `str(result) if result else "No
response generated"`, then `strip`. -/
def gaAnswer (reply : PyStr) : PyStr :=
  pyStrip (if reply = [] then pyOf "No response generated" else reply)

/-- llm_service.py lines 184-198: the (start, end) pair extracted from
one line of the `TIMESTAMPS:` section, or `none` when the line is
skipped (not `- ... Time: ...` shaped, no `to`, or not exactly one `to`
— the `start, end = ...` unpacking raises a ValueError that the per-line
`except` swallows). -/
def tsLinePair (rawLine : PyStr) : Option (PyStr × PyStr) :=
  let line := pyStrip rawLine
  if pyStartsWith line (pyOf "-") && pyContains line (pyOf "Time:") then
    -- line.split("Time:")[1], optionally cut at "|" or "(Video:", stripped
    let afterTime := (pySplitOn line (pyOf "Time:")).getD 1 []
    let time_part :=
      if pyContains line (pyOf "|") then
        pyStrip (pyBeforeFirst afterTime (pyOf "|"))
      else if pyContains line (pyOf "(Video:") then
        pyStrip (pyBeforeFirst afterTime (pyOf "(Video:"))
      else
        pyStrip afterTime
    if pyContains time_part (pyOf "to") then
      match pySplitOn time_part (pyOf "to") with
      | [s, e] => some (pyStrip s, pyStrip e)
      | _ => none
    else none
  else none

/-- llm_service.py lines 184-216: parse one line of the `TIMESTAMPS:`
section against the candidate list, returning the (timestamp, clip)
pair appended by the loop, or `none` when the line is skipped or no
candidate has an exactly equal (start, end) pair. -/
def parseTsLine (relevant_clips : List ClipEntry) (rawLine : PyStr) :
    Option (TsEntry × ClipEntry) :=
  (tsLinePair rawLine).bind fun se =>
    (relevant_clips.find? fun c =>
        c.start_time == se.1 && c.end_time == se.2).map
      fun clip => (⟨se.1, se.2, clip.video_path⟩, clip)

/-- llm_service.py lines 177-179: the `timestamps_section` scanned by the
parsing loop (empty when the reply has no `TIMESTAMPS:` marker; also
empty on the `IndexError` path where only the upper-cased reply contains
the marker). -/
def gaSection (answer : PyStr) : PyStr :=
  if pyContains (pyUpper answer) (pyOf "TIMESTAMPS:") then
    (pyAfterFirst answer (pyOf "TIMESTAMPS:")).getD []
  else []

/-- llm_service.py lines 181-216: the parsing loop over the lines of the
`TIMESTAMPS:` section (the source appends to `parsed_timestamps` and
`parsed_clips` in lockstep; the pair list is equivalent). -/
def gaParsed (relevant_clips : List ClipEntry) (sect : PyStr) :
    List (TsEntry × ClipEntry) :=
  (pySplitOn sect (pyOf "\n")).filterMap (parseTsLine relevant_clips)

/-- The error dict built by the `except` handler, llm_service.py lines
236-243. -/
def gaErrorResult (err : PyStr) (timestamps : List TsEntry)
    (relevant_clips : List ClipEntry) : GAResult :=
  ⟨pyOf "Error generating answer: Error calling Qwen2.5 Space API: " ++ err,
   timestamps, relevant_clips⟩

/-- `LLMService.generate_answer` (llm_service.py lines 30-251), as a
function of the candidate contexts and the Answer Service outcome. -/
def generate_answer (contexts : List Context) (max_clips : Nat)
    (call : ServiceCall) : GAResult :=
  if contexts = [] then
    ⟨pyOf "No relevant video content found to answer your query.", [], []⟩
  else
    let timestamps := gaTimestamps contexts max_clips
    let relevant_clips := gaClips contexts max_clips
    match call with
    | .raised err => gaErrorResult err timestamps relevant_clips
    | .ok reply =>
      let answer := gaAnswer reply
      if pyStartsWith (pyUpper answer) (pyOf "NOT_FOUND") then
        let explanation :=
          if pyContains answer (pyOf ":") then
            pyStrip ((pyAfterFirst answer (pyOf ":")).getD [])
          else
            pyOf "No relevant content found in the analyzed video clips."
        ⟨explanation, [], []⟩
      else if pyContains (pyUpper answer) (pyOf "TIMESTAMPS:")
          ∧ pyAfterFirst answer (pyOf "TIMESTAMPS:") = none then
        -- line 179: `answer.split("TIMESTAMPS:", 1)[1]` raises IndexError,
        -- caught by the `except` handler at line 236
        gaErrorResult (pyOf "list index out of range") timestamps relevant_clips
      else
        let parsed := gaParsed relevant_clips (gaSection answer)
        let parsed_timestamps := parsed.map Prod.fst
        let parsed_clips := parsed.map Prod.snd
        -- lines 218-222: fallback to all candidates when nothing parsed
        let parsed_timestamps :=
          if parsed_timestamps = [] ∧ relevant_clips ≠ [] then timestamps
          else parsed_timestamps
        let parsed_clips :=
          if parsed.map Prod.fst = [] ∧ relevant_clips ≠ [] then relevant_clips
          else parsed_clips
        -- lines 224-226: answer text before "TIMESTAMPS:", "FOUND:" stripped
        let answer_text :=
          if pyContains (pyUpper answer) (pyOf "TIMESTAMPS:") then
            pyBeforeFirst answer (pyOf "TIMESTAMPS:")
          else answer
        let answer_text := pyStrip (pyReplace answer_text (pyOf "FOUND:") [])
        ⟨answer_text,
         if parsed_timestamps = [] then timestamps else parsed_timestamps,
         if parsed_clips = [] then relevant_clips else parsed_clips⟩

/-- When `sep` occurs in `s`, Python's `s.split(sep, 1)[1]` does not
raise. -/
theorem pyContains_pyAfterFirst {s sep : PyStr} (h : pyContains s sep = true) :
    pyAfterFirst s sep ≠ none := by
  unfold pyContains at h
  unfold pyAfterFirst
  rcases hsp : pySplitOn s sep with _ | ⟨a, _ | ⟨b, tl⟩⟩
  all_goals rw [hsp] at h
  all_goals simp at h ⊢

/-- A non-empty candidate prefix of a non-empty context list. -/
theorem gaClips_ne_nil {contexts : List Context} {max_clips : Nat}
    (h1 : contexts ≠ []) (hmc : max_clips ≠ 0) :
    gaClips contexts max_clips ≠ [] := by
  simp only [gaClips, ne_eq, List.map_eq_nil_iff, List.take_eq_nil_iff]
  tauto

/-- As `gaClips_ne_nil`, for the `timestamps` list. -/
theorem gaTimestamps_ne_nil {contexts : List Context} {max_clips : Nat}
    (h1 : contexts ≠ []) (hmc : max_clips ≠ 0) :
    gaTimestamps contexts max_clips ≠ [] := by
  simp only [gaTimestamps, ne_eq, List.map_eq_nil_iff, List.take_eq_nil_iff]
  tauto

/-- C6: for a reply with a positive (non-`NOT_FOUND`) verdict and a
literal `TIMESTAMPS:` section in which at least one line matches, the
Correlator accepts exactly the lines starting with `-` that contain
`Time:`, extracts each start/end pair, matches it against the candidate
list by exact (start, end) equality, and returns exactly the matched
candidates as evidence in the order the reply listed them; lines whose
pair matches no candidate are dropped silently. -/
theorem c6_correlator_matched_evidence
    (contexts : List Context) (max_clips : Nat) (reply : PyStr)
    (h1 : contexts ≠ [])
    (h2 : pyStartsWith (pyUpper (gaAnswer reply)) (pyOf "NOT_FOUND") = false)
    (h3 : pyContains (gaAnswer reply) (pyOf "TIMESTAMPS:") = true)
    (h4 : gaParsed (gaClips contexts max_clips) (gaSection (gaAnswer reply)) ≠ []) :
    ((generate_answer contexts max_clips (.ok reply)).timestamps =
      (pySplitOn (gaSection (gaAnswer reply)) (pyOf "\n")).filterMap
        (fun l => (parseTsLine (gaClips contexts max_clips) l).map Prod.fst)
    ∧ (generate_answer contexts max_clips (.ok reply)).relevant_clips =
      (pySplitOn (gaSection (gaAnswer reply)) (pyOf "\n")).filterMap
        (fun l => (parseTsLine (gaClips contexts max_clips) l).map Prod.snd))
    ∧ (∀ l se, tsLinePair l = some se →
        parseTsLine (gaClips contexts max_clips) l =
          ((gaClips contexts max_clips).find? fun c =>
              c.start_time == se.1 && c.end_time == se.2).map
            fun clip => (⟨se.1, se.2, clip.video_path⟩, clip))
    ∧ (∀ l, tsLinePair l = none →
        parseTsLine (gaClips contexts max_clips) l = none) := by
  have hne := pyContains_pyAfterFirst h3
  refine ⟨?_, ?_, ?_⟩
  · have hnf : ¬ pyStartsWith (pyUpper (gaAnswer reply)) (pyOf "NOT_FOUND") = true := by
      simp [h2]
    have hidx : ¬ (pyContains (pyUpper (gaAnswer reply)) (pyOf "TIMESTAMPS:") = true
        ∧ pyAfterFirst (gaAnswer reply) (pyOf "TIMESTAMPS:") = none) :=
      fun hc => hne hc.2
    have hfb2 : ¬ List.map Prod.fst
        (gaParsed (gaClips contexts max_clips) (gaSection (gaAnswer reply))) = [] :=
      fun ha => h4 (List.map_eq_nil_iff.mp ha)
    have hfb3 : ¬ List.map Prod.snd
        (gaParsed (gaClips contexts max_clips) (gaSection (gaAnswer reply))) = [] :=
      fun ha => h4 (List.map_eq_nil_iff.mp ha)
    have hfb : ¬ (List.map Prod.fst
        (gaParsed (gaClips contexts max_clips) (gaSection (gaAnswer reply))) = []
        ∧ ¬ gaClips contexts max_clips = []) :=
      fun hc => hfb2 hc.1
    simp only [generate_answer, if_neg h1, if_neg hnf, if_neg hidx, if_neg hfb,
      if_neg hfb2, if_neg hfb3]
    exact ⟨by simp [gaParsed, List.map_filterMap],
      by simp [gaParsed, List.map_filterMap]⟩
  · intro l se hse
    simp [parseTsLine, hse]
  · intro l hl
    simp [parseTsLine, hl]

/-- Concrete candidates for the correlator round-trip instance. -/
def c6ctxs : List Context :=
  [⟨pyOf "a person walks", pyOf "10:00:01", pyOf "10:00:17", pyOf "rec/clip_a.avi"⟩,
   ⟨pyOf "a cat sits", pyOf "10:05:01", pyOf "10:05:17", pyOf "rec/clip_b.avi"⟩,
   ⟨pyOf "rain falls", pyOf "10:09:01", pyOf "10:09:17", pyOf "rec/clip_c.avi"⟩]

/-- A synthetic `FOUND:`/`TIMESTAMPS:` reply listing the third and the
first candidate's intervals plus one interval matching no candidate. -/
def c6reply : PyStr :=
  pyOf "FOUND:\nA person and rain were seen.\n\nTIMESTAMPS:\n- Time: 10:09:01 to 10:09:17 | Video: clip_c.avi\n- Time: 10:00:01 to 10:00:17 | Video: clip_a.avi\n- Time: 11:11:11 to 11:11:12 | Video: clip_x.avi"

/-- Witness for `c6_correlator_matched_evidence` at the concrete
round-trip instance: hypotheses hold and the theorem applies. -/
theorem c6_correlator_matched_evidence_witness :
    (c6ctxs ≠ []
      ∧ pyStartsWith (pyUpper (gaAnswer c6reply)) (pyOf "NOT_FOUND") = false
      ∧ pyContains (gaAnswer c6reply) (pyOf "TIMESTAMPS:") = true
      ∧ gaParsed (gaClips c6ctxs 5) (gaSection (gaAnswer c6reply)) ≠ [])
    ∧ (generate_answer c6ctxs 5 (.ok c6reply)).relevant_clips =
      (pySplitOn (gaSection (gaAnswer c6reply)) (pyOf "\n")).filterMap
        (fun l => (parseTsLine (gaClips c6ctxs 5) l).map Prod.snd) :=
  ⟨⟨by decide, by decide, by decide, by decide⟩,
   (c6_correlator_matched_evidence c6ctxs 5 c6reply
     (by decide) (by decide) (by decide) (by decide)).1.2⟩

/- The round-trip instance, evaluated: evidence is exactly the third and
then the first candidate (the reply's order); the unmatched line is
dropped. -/
example :
    (generate_answer c6ctxs 5 (.ok c6reply)).relevant_clips =
      [⟨pyOf "rec/clip_c.avi", pyOf "10:09:01", pyOf "10:09:17", pyOf "rain falls"⟩,
       ⟨pyOf "rec/clip_a.avi", pyOf "10:00:01", pyOf "10:00:17", pyOf "a person walks"⟩]
    ∧ (generate_answer c6ctxs 5 (.ok c6reply)).timestamps =
      [⟨pyOf "10:09:01", pyOf "10:09:17", pyOf "rec/clip_c.avi"⟩,
       ⟨pyOf "10:00:01", pyOf "10:00:17", pyOf "rec/clip_a.avi"⟩] := by decide

/-- C7: for a reply that does not begin with `NOT_FOUND`, if zero
timestamp lines parse successfully the Correlator returns the full
original candidate set (its first `max_clips` entries, all of them when
the list is short enough) as both timestamps and relevant clips;
evidence is never empty on a positive verdict. -/
theorem c7_correlator_fallback
    (contexts : List Context) (max_clips : Nat) (reply : PyStr)
    (h1 : contexts ≠ []) (hmc : max_clips ≠ 0)
    (h2 : pyStartsWith (pyUpper (gaAnswer reply)) (pyOf "NOT_FOUND") = false)
    (h3 : gaParsed (gaClips contexts max_clips) (gaSection (gaAnswer reply)) = []) :
    (generate_answer contexts max_clips (.ok reply)).timestamps =
      gaTimestamps contexts max_clips
    ∧ (generate_answer contexts max_clips (.ok reply)).relevant_clips =
      gaClips contexts max_clips
    ∧ (generate_answer contexts max_clips (.ok reply)).relevant_clips ≠ [] := by
  have hnf : ¬ pyStartsWith (pyUpper (gaAnswer reply)) (pyOf "NOT_FOUND") = true := by
    simp [h2]
  have hcl := gaClips_ne_nil h1 hmc
  by_cases hidx : pyContains (pyUpper (gaAnswer reply)) (pyOf "TIMESTAMPS:") = true
      ∧ pyAfterFirst (gaAnswer reply) (pyOf "TIMESTAMPS:") = none
  · simp only [generate_answer, if_neg h1, if_neg hnf, if_pos hidx, gaErrorResult]
    exact ⟨by trivial, by trivial, hcl⟩
  · have hfb : List.map Prod.fst
        (gaParsed (gaClips contexts max_clips) (gaSection (gaAnswer reply))) = []
        ∧ ¬ gaClips contexts max_clips = [] := by
      rw [h3]
      exact ⟨rfl, hcl⟩
    simp only [generate_answer, if_neg h1, if_neg hnf, if_neg hidx, if_pos hfb]
    rw [ite_self, ite_self]
    exact ⟨by trivial, by trivial, hcl⟩

/-- Concrete candidate list for the fallback instance. -/
def c7ctxs : List Context :=
  [⟨pyOf "a person walks", pyOf "10:00:01", pyOf "10:00:17", pyOf "rec/clip_a.avi"⟩,
   ⟨pyOf "a cat sits", pyOf "10:05:01", pyOf "10:05:17", pyOf "rec/clip_b.avi"⟩]

/-- A `FOUND:` reply whose `TIMESTAMPS:` section is malformed (no line
parses). -/
def c7reply : PyStr :=
  pyOf "FOUND:\nStuff happened.\n\nTIMESTAMPS:\nat some point during the morning"

/-- Witness for `c7_correlator_fallback` at the malformed-section
instance: hypotheses hold and the theorem applies. -/
theorem c7_correlator_fallback_witness :
    (c7ctxs ≠ [] ∧ (5 : Nat) ≠ 0
      ∧ pyStartsWith (pyUpper (gaAnswer c7reply)) (pyOf "NOT_FOUND") = false
      ∧ gaParsed (gaClips c7ctxs 5) (gaSection (gaAnswer c7reply)) = [])
    ∧ (generate_answer c7ctxs 5 (.ok c7reply)).relevant_clips = gaClips c7ctxs 5
    ∧ (generate_answer c7ctxs 5 (.ok c7reply)).relevant_clips ≠ [] :=
  ⟨⟨by decide, by decide, by decide, by decide⟩,
   (c7_correlator_fallback c7ctxs 5 c7reply
     (by decide) (by decide) (by decide) (by decide)).2.1,
   (c7_correlator_fallback c7ctxs 5 c7reply
     (by decide) (by decide) (by decide) (by decide)).2.2⟩

/-- C10 (counterexample to the claim as stated): with six candidates and
the default `max_clips = 5`, a raised Answer Service call yields evidence
that does NOT contain all original candidates — the sixth is missing. -/
theorem c10_error_evidence_counterexample :
    (generate_answer
      [⟨pyOf "d1", pyOf "s1", pyOf "e1", pyOf "v1"⟩,
       ⟨pyOf "d2", pyOf "s2", pyOf "e2", pyOf "v2"⟩,
       ⟨pyOf "d3", pyOf "s3", pyOf "e3", pyOf "v3"⟩,
       ⟨pyOf "d4", pyOf "s4", pyOf "e4", pyOf "v4"⟩,
       ⟨pyOf "d5", pyOf "s5", pyOf "e5", pyOf "v5"⟩,
       ⟨pyOf "d6", pyOf "s6", pyOf "e6", pyOf "v6"⟩] 5
      (.raised (pyOf "boom"))).relevant_clips.length = 5
    ∧ ([⟨pyOf "d1", pyOf "s1", pyOf "e1", pyOf "v1"⟩,
        ⟨pyOf "d2", pyOf "s2", pyOf "e2", pyOf "v2"⟩,
        ⟨pyOf "d3", pyOf "s3", pyOf "e3", pyOf "v3"⟩,
        ⟨pyOf "d4", pyOf "s4", pyOf "e4", pyOf "v4"⟩,
        ⟨pyOf "d5", pyOf "s5", pyOf "e5", pyOf "v5"⟩,
        ⟨pyOf "d6", pyOf "s6", pyOf "e6", pyOf "v6"⟩] : List Context).length = 6
    ∧ (⟨pyOf "v6", pyOf "s6", pyOf "e6", pyOf "d6"⟩ : ClipEntry) ∉
      (generate_answer
        [⟨pyOf "d1", pyOf "s1", pyOf "e1", pyOf "v1"⟩,
         ⟨pyOf "d2", pyOf "s2", pyOf "e2", pyOf "v2"⟩,
         ⟨pyOf "d3", pyOf "s3", pyOf "e3", pyOf "v3"⟩,
         ⟨pyOf "d4", pyOf "s4", pyOf "e4", pyOf "v4"⟩,
         ⟨pyOf "d5", pyOf "s5", pyOf "e5", pyOf "v5"⟩,
         ⟨pyOf "d6", pyOf "s6", pyOf "e6", pyOf "v6"⟩] 5
        (.raised (pyOf "boom"))).relevant_clips := by
  refine ⟨by decide, by decide, ?_⟩
  decide

/-- C10 (amended): when the Answer Service call raises, `generate_answer`
catches the exception and returns an error-message answer whose
`timestamps` and `relevant_clips` contain exactly the candidates that
were included in the prompt — the first `min(max_clips, length)`
candidates — and the evidence is non-empty for any non-empty candidate
list. -/
theorem c10_error_evidence
    (contexts : List Context) (max_clips : Nat) (err : PyStr)
    (h1 : contexts ≠ []) (hmc : max_clips ≠ 0) :
    generate_answer contexts max_clips (.raised err) =
      gaErrorResult err (gaTimestamps contexts max_clips)
        (gaClips contexts max_clips)
    ∧ (generate_answer contexts max_clips (.raised err)).answer =
      pyOf "Error generating answer: Error calling Qwen2.5 Space API: " ++ err
    ∧ (generate_answer contexts max_clips (.raised err)).timestamps ≠ []
    ∧ (generate_answer contexts max_clips (.raised err)).relevant_clips ≠ [] := by
  have h := gaClips_ne_nil h1 hmc
  have ht := gaTimestamps_ne_nil h1 hmc
  simp only [generate_answer, if_neg h1, gaErrorResult]
  exact ⟨by trivial, by trivial, ht, h⟩

/-- Witness for `c10_error_evidence` at a concrete instance. -/
theorem c10_error_evidence_witness :
    (([⟨pyOf "d1", pyOf "s1", pyOf "e1", pyOf "v1"⟩] : List Context) ≠ []
      ∧ (5 : Nat) ≠ 0)
    ∧ (generate_answer [⟨pyOf "d1", pyOf "s1", pyOf "e1", pyOf "v1"⟩] 5
        (.raised (pyOf "boom"))).relevant_clips ≠ [] :=
  ⟨⟨by decide, by decide⟩,
   (c10_error_evidence [⟨pyOf "d1", pyOf "s1", pyOf "e1", pyOf "v1"⟩] 5
     (pyOf "boom") (by decide) (by decide)).2.2.2⟩

/-!
## Semantic Store — `storage_service.py`, `StorageService.search_analyses`

The backing ChromaDB `collection.query` call is a black box; it is
modelled by the list of hits it returns for the query (the ChromaDB
contract guarantees at most `n_results = min(top_k, count)` hits, which
appears as a hypothesis of the theorem).  Distances and similarities are
Python floats; they are modelled as rationals, which preserves the
ordering and linear arithmetic the code performs on them. -/

/-- One raw hit as returned by `collection.query` (id, document,
metadata are opaque here; `distance` is the cosine distance, `none`
when ChromaDB returns no distances). -/
structure QueryHit where
  id : PyStr
  document : PyStr
  distance : Option ℚ
  deriving DecidableEq

/-- One formatted result of `search_analyses`. -/
structure SearchResult where
  id : PyStr
  document : PyStr
  distance : Option ℚ
  similarity : Option ℚ
  deriving DecidableEq

/-- storage_service.py lines 118-125: map a cosine distance to a
similarity score (`1 - distance/2` for `distance ≤ 2`, else `0`). -/
def simOfDistance (d : ℚ) : ℚ :=
  if d ≤ 2 then 1 - d / 2 else 0

/-- `StorageService.search_analyses` (storage_service.py lines 76-151):
empty query or empty store return `[]`; otherwise the raw hits are
formatted, hits whose similarity falls below `min_relevance` are
skipped (hits without a distance are kept with `similarity = None`),
and the final list is truncated to `top_k`. -/
def search_analyses (storedCount : Nat) (hits : List QueryHit)
    (query : PyStr) (top_k : Nat) (min_relevance : ℚ) : List SearchResult :=
  if query = [] then []
  else if storedCount = 0 then []
  else
    let formatted := hits.filterMap fun h =>
      match h.distance with
      | some d =>
        let similarity := simOfDistance d
        if similarity < min_relevance then none
        else some ⟨h.id, h.document, some d, some similarity⟩
      | none => some ⟨h.id, h.document, none, none⟩
    formatted.take top_k

/-- C5: `search_analyses` returns at most `min(top_k, storedCount)`
results (given the ChromaDB contract that the backing query returns at
most `min(top_k, storedCount)` hits), never returns a result whose
similarity is below `min_relevance`, and returns the empty list when
the relevance filter removes every hit. -/
theorem c5_search_capped_and_filtered
    (storedCount : Nat) (hits : List QueryHit) (query : PyStr)
    (top_k : Nat) (min_relevance : ℚ)
    (hcontract : hits.length ≤ min top_k storedCount) :
    (search_analyses storedCount hits query top_k min_relevance).length ≤
      min top_k storedCount
    ∧ (∀ r ∈ search_analyses storedCount hits query top_k min_relevance,
        ∀ s, r.similarity = some s → min_relevance ≤ s)
    ∧ ((∀ h ∈ hits, ∃ d, h.distance = some d ∧ simOfDistance d < min_relevance) →
        search_analyses storedCount hits query top_k min_relevance = []) := by
  refine ⟨?_, ?_, ?_⟩
  · unfold search_analyses
    split
    · simp
    · split
      · simp
      · have hf : (hits.filterMap fun h =>
            match h.distance with
            | some d =>
              if simOfDistance d < min_relevance then none
              else some (⟨h.id, h.document, some d, some (simOfDistance d)⟩ :
                SearchResult)
            | none => some ⟨h.id, h.document, none, none⟩).length ≤ hits.length :=
          List.length_filterMap_le _ _
        simp only [List.length_take]
        omega
  · intro r hr s hs
    unfold search_analyses at hr
    split at hr
    · simp at hr
    · split at hr
      · simp at hr
      · have hr' := List.mem_of_mem_take hr
        obtain ⟨h, _, hfh⟩ := List.mem_filterMap.mp hr'
        rcases hd : h.distance with _ | d
        · simp only [hd] at hfh
          simp only [Option.some.injEq] at hfh
          rw [← hfh] at hs
          simp at hs
        · simp only [hd] at hfh
          by_cases hlt : simOfDistance d < min_relevance
          · rw [if_pos hlt] at hfh
            simp at hfh
          · rw [if_neg hlt] at hfh
            simp only [Option.some.injEq] at hfh
            rw [← hfh] at hs
            simp only [Option.some.injEq] at hs
            rw [← hs]
            exact le_of_not_lt hlt
  · intro hall
    unfold search_analyses
    split
    · rfl
    · split
      · rfl
      · have : (hits.filterMap fun h =>
            match h.distance with
            | some d =>
              if simOfDistance d < min_relevance then none
              else some (⟨h.id, h.document, some d, some (simOfDistance d)⟩ :
                SearchResult)
            | none => some ⟨h.id, h.document, none, none⟩) = [] := by
          rw [List.filterMap_eq_nil_iff]
          intro h hmem
          obtain ⟨d, hd, hlt⟩ := hall h hmem
          simp only [hd]
          rw [if_pos hlt]
        rw [this]
        simp

/-- Concrete hits for the search instance: distances 1/2 (similarity
3/4, kept) and 9/5 (similarity 1/10, filtered out). -/
def c5hits : List QueryHit :=
  [⟨pyOf "id1", pyOf "doc one", some (1/2 : ℚ)⟩,
   ⟨pyOf "id2", pyOf "doc two", some (9/5 : ℚ)⟩]

/-- Witness for `c5_search_capped_and_filtered` at a concrete instance. -/
theorem c5_search_capped_and_filtered_witness :
    (c5hits.length ≤ min 2 3)
    ∧ (search_analyses 3 c5hits (pyOf "q") 2 (1/2)).length ≤ min 2 3
    ∧ (∀ r ∈ search_analyses 3 c5hits (pyOf "q") 2 (1/2),
        ∀ s, r.similarity = some s → (1/2 : ℚ) ≤ s) :=
  ⟨by decide,
   (c5_search_capped_and_filtered 3 c5hits (pyOf "q") 2 (1/2) (by decide)).1,
   (c5_search_capped_and_filtered 3 c5hits (pyOf "q") 2 (1/2) (by decide)).2.1⟩

/- The concrete instance, evaluated: only the high-similarity hit
survives the relevance filter. -/
example :
    search_analyses 3 c5hits (pyOf "q") 2 (1/2) =
      [⟨pyOf "id1", pyOf "doc one", some (1/2 : ℚ), some (3/4 : ℚ)⟩] := by
  have h1 : simOfDistance (1/2) = 3/4 := by norm_num [simOfDistance]
  have h2 : simOfDistance (9/5) = 1/10 := by norm_num [simOfDistance]
  have hq : ¬ pyOf "q" = [] := by decide
  have hlt1 : ¬ simOfDistance (1/2) < (1/2 : ℚ) := by rw [h1]; norm_num
  have hlt2 : simOfDistance (9/5) < (1/2 : ℚ) := by rw [h2]; norm_num
  simp only [search_analyses, c5hits, List.filterMap_cons, if_neg hq,
    if_neg hlt1, if_pos hlt2, h1]
  norm_num

/-!
## Motion detection — `camera_service.py`, `_motion_detection_loop`

Frames are modelled as grayscale images (flat pixel-intensity lists) —
the `cv2.cvtColor` conversion is the identity in this model.  A cycle of
the loop (lines 266-304) either processes one dequeued frame, or is
interleaved with the recording timer's `_stop_recording`, whose locked
section sets `is_recording = False` (modelled as the `sessionEnd`
input).  `_start_recording` is modelled by its effect on the state the
motion loop reads: it sets `is_recording = True` (its success path). -/

/-- camera_service.py lines 283-289: `cv2.absdiff`, threshold at 30
(binary), `countNonZero` — the number of pixel positions whose absolute
intensity difference exceeds 30. -/
def diffPixels (a b : List Nat) : Nat :=
  ((a.zip b).filter fun p => 30 < max p.1 p.2 - min p.1 p.2).length

/-- The state read and written by the motion detection loop. -/
structure MDState where
  last_frame : Option (List Nat)
  motion_detected : Bool
  is_recording : Bool
  deriving DecidableEq

/-- Events observable from one cycle of the motion detection loop. -/
inductive MDEvent where
  | motion (detected : Bool)     -- `motion_callback(motion_detected)`
  | startRecording               -- `_start_recording()` invoked
  deriving DecidableEq

/-- One input to the loop: a dequeued frame, or the recording timer
ending the active session in between two cycles (`_stop_recording`,
lines 396-401, sets `is_recording = False` under the lock). -/
inductive CycleIn where
  | frame (f : List Nat)
  | sessionEnd
  deriving DecidableEq

/-- One iteration of `_motion_detection_loop` (camera_service.py lines
266-304) over one input, returning the new state and the events emitted
during the cycle, in order. -/
def mdCycle (motion_threshold : Nat) (s : MDState) :
    CycleIn → MDState × List MDEvent
  | .sessionEnd => ({ s with is_recording := false }, [])
  | .frame f =>
    match s.last_frame with
    | none => ({ s with last_frame := some f }, [])
    | some lf =>
      let motion_pixels := diffPixels lf f
      let motion_detected := decide (motion_threshold < motion_pixels)
      let transitionEvents :=
        if motion_detected ≠ s.motion_detected then [MDEvent.motion motion_detected]
        else []
      let startEvents :=
        if motion_detected ∧ ¬ s.is_recording then [MDEvent.startRecording]
        else []
      (⟨some f, motion_detected,
        if motion_detected ∧ ¬ s.is_recording then true else s.is_recording⟩,
       transitionEvents ++ startEvents)

/-- Run the loop over a list of inputs, collecting all events. -/
def mdRun (motion_threshold : Nat) (s : MDState) :
    List CycleIn → MDState × List MDEvent
  | [] => (s, [])
  | i :: rest =>
    let (s', evs) := mdCycle motion_threshold s i
    let (s'', evs') := mdRun motion_threshold s' rest
    (s'', evs ++ evs')

/-- The initial state of a fresh stream (camera_service.py lines 25-26,
45). -/
def mdInit : MDState := ⟨none, false, false⟩

/-- Is an event a motion transition event? -/
def isMotionEvent : MDEvent → Bool
  | .motion _ => true
  | .startRecording => false

/-- C8: in one cycle of the motion detection loop, a motion transition
event is emitted exactly when the cycle's computed motion boolean
differs from the previous cycle's value (and then it is a single event
carrying the new value); while the boolean stays constant no event is
emitted; the first frame (no prior frame) produces no decision and no
event — the frame is only stored. -/
theorem c8_motion_events_edge_triggered
    (motion_threshold : Nat) (s : MDState) (f : List Nat) :
    (s.last_frame = none →
      mdCycle motion_threshold s (.frame f) = ({ s with last_frame := some f }, []))
    ∧ (∀ lf, s.last_frame = some lf →
      ((mdCycle motion_threshold s (.frame f)).2.filter isMotionEvent =
        (if decide (motion_threshold < diffPixels lf f) ≠ s.motion_detected then
          [MDEvent.motion (decide (motion_threshold < diffPixels lf f))]
        else [])
      ∧ (mdCycle motion_threshold s (.frame f)).1.motion_detected =
        decide (motion_threshold < diffPixels lf f))) := by
  constructor
  · intro h
    simp [mdCycle, h]
  · intro lf h
    constructor
    · simp only [mdCycle, h]
      by_cases hmd : decide (motion_threshold < diffPixels lf f) ≠ s.motion_detected
      · rw [if_pos hmd]
        by_cases hrec : decide (motion_threshold < diffPixels lf f) = true
            ∧ ¬ s.is_recording = true
        · rw [if_pos hrec]
          simp [isMotionEvent]
        · rw [if_neg hrec]
          simp [isMotionEvent]
      · rw [if_neg hmd]
        by_cases hrec : decide (motion_threshold < diffPixels lf f) = true
            ∧ ¬ s.is_recording = true
        · rw [if_pos hrec]
          simp [isMotionEvent]
        · rw [if_neg hrec]
          simp [isMotionEvent]
    · simp [mdCycle, h]

/-- Witness for `c8_motion_events_edge_triggered`: a first frame stores
and emits nothing; a later frame with a large difference and previous
motion state `false` emits exactly one `motion true` event. -/
theorem c8_motion_events_edge_triggered_witness :
    ((⟨none, false, false⟩ : MDState).last_frame = none
      ∧ mdCycle 5000 ⟨none, false, false⟩ (.frame [7]) =
          (⟨some [7], false, false⟩, []))
    ∧ ((⟨some [0], false, false⟩ : MDState).last_frame = some [0]
      ∧ (mdCycle 0 ⟨some [0], false, false⟩ (.frame [100])).2.filter isMotionEvent =
          [MDEvent.motion true]) :=
  ⟨⟨rfl, (c8_motion_events_edge_triggered 5000 ⟨none, false, false⟩ [7]).1 rfl⟩,
   ⟨rfl, by
      have h := ((c8_motion_events_edge_triggered 0 ⟨some [0], false, false⟩
        [100]).2 [0] rfl).1
      rw [h]
      decide⟩⟩

/-- C1 (counterexample to the claim as stated): with motion threshold 0,
frames `[0]`, `[100]` make motion active and start a first session; a
timer-driven session end followed by frame `[200]` — motion continuously
active, no new false→true transition — starts a second session: the run
emits two `startRecording` events but only one motion transition. -/
theorem c1_start_not_edge_triggered_counterexample :
    (mdRun 0 mdInit
      [.frame [0], .frame [100], .sessionEnd, .frame [200]]).2 =
      [MDEvent.motion true, MDEvent.startRecording, MDEvent.startRecording]
    ∧ ((mdRun 0 mdInit
      [.frame [0], .frame [100], .sessionEnd, .frame [200]]).2.filter
        isMotionEvent).length = 1
    ∧ ((mdRun 0 mdInit
      [.frame [0], .frame [100], .sessionEnd, .frame [200]]).2.filter
        (fun e => !isMotionEvent e)).length = 2 := by
  decide

/-- C1 (amended): recording start is level-triggered, not
edge-triggered — in any decision cycle a new recording session is
started exactly when the cycle's motion boolean is active and no session
is currently active, regardless of whether a false→true transition
occurred; in particular, when motion remains continuously active after a
session ends, the next cycle starts a new session. -/
theorem c1_start_level_triggered
    (motion_threshold : Nat) (s : MDState) (f lf : List Nat)
    (h : s.last_frame = some lf) :
    (MDEvent.startRecording ∈ (mdCycle motion_threshold s (.frame f)).2 ↔
      (motion_threshold < diffPixels lf f ∧ s.is_recording = false))
    ∧ ((mdCycle motion_threshold s (.frame f)).1.is_recording =
      (decide (motion_threshold < diffPixels lf f) || s.is_recording)) := by
  constructor
  · simp only [mdCycle, h]
    by_cases hrec : decide (motion_threshold < diffPixels lf f) = true
        ∧ ¬ s.is_recording = true
    · rw [if_pos hrec]
      simp only [List.mem_append, List.mem_singleton]
      constructor
      · intro _
        exact ⟨by simpa using hrec.1, by simpa using hrec.2⟩
      · intro _
        right
        trivial
    · rw [if_neg hrec]
      constructor
      · intro hmem
        by_cases hmd : decide (motion_threshold < diffPixels lf f) ≠ s.motion_detected
        · rw [if_pos hmd] at hmem
          simp at hmem
        · rw [if_neg hmd] at hmem
          simp at hmem
      · intro ⟨h1, h2⟩
        exact absurd ⟨by simpa using h1, by simp [h2]⟩ hrec
  · simp only [mdCycle, h]
    by_cases hrec : decide (motion_threshold < diffPixels lf f) = true
        ∧ ¬ s.is_recording = true
    · rw [if_pos hrec]
      simp [hrec.1]
    · rw [if_neg hrec]
      rcases Decidable.not_and_iff_or_not.mp hrec with h1 | h2
      · simp only [Bool.not_eq_true] at h1
        simp [h1]
      · simp only [Bool.not_eq_true, not_not] at h2
        simp [h2]

/-- Witness for `c1_start_level_triggered`: motion active while idle in
a decision cycle starts a session. -/
theorem c1_start_level_triggered_witness :
    ((⟨some [0], true, false⟩ : MDState).last_frame = some [0])
    ∧ (MDEvent.startRecording ∈
        (mdCycle 0 ⟨some [0], true, false⟩ (.frame [100])).2 ↔
      (0 < diffPixels [0] [100] ∧ false = false)) :=
  ⟨rfl, (c1_start_level_triggered 0 ⟨some [0], true, false⟩ [100] [0] rfl).1⟩

/-!
## Clip finalization — `camera_service.py`, `_stop_recording` tail

The finalization step of `_stop_recording` (lines 412-464) polls the
recorded file (exists / size), accepts it as a clip when it exists and
exceeds 1024 bytes, and otherwise deletes it.  The file system is
modelled by the stable post-flush state of the file: `none` when the
file does not exist, `some size` when it does. -/

/-- What `_stop_recording` does with the finished file. -/
inductive StopOutcome where
  | clipReady        -- appended to `processed_clips`, `clip_ready` callback fired
  | deletedSmall     -- file existed but was ≤ 1024 bytes: deleted, no clip
  | missingFile      -- file never appeared: nothing to hand over
  deriving DecidableEq

/-- camera_service.py lines 420-435: the retry loop reading `file_size`
(up to 10 attempts, breaking early once the size exceeds 1024 bytes);
over a stable file state it returns the last observed size (0 when the
file never exists). -/
def sizeCheckLoop (file : Option Nat) : Nat → Nat → Nat
  | 0, file_size => file_size
  | retries + 1, file_size =>
    match file with
    | some sz => if 1024 < sz then sz else sizeCheckLoop file retries sz
    | none => sizeCheckLoop file retries file_size

/-- camera_service.py lines 412-459: validate the finished recording
file and decide its fate. -/
def stopFinalize (file : Option Nat) : StopOutcome :=
  let file_size := sizeCheckLoop file 10 0
  if file.isSome ∧ 1024 < file_size then .clipReady
  else if file.isSome then .deletedSmall
  else .missingFile

/-- The `clip_ready` callback fires exactly on a valid clip
(camera_service.py lines 437-447). -/
def emitsClipReady (file : Option Nat) : Bool :=
  decide (stopFinalize file = .clipReady)

/-- Over a stable file, the retry loop yields the file's size when it
exists (for at least one attempt), and the initial value otherwise. -/
theorem sizeCheckLoop_stable (file : Option Nat) (retries init : Nat) :
    sizeCheckLoop file (retries + 1) init =
      match file with
      | some sz => sz
      | none => init := by
  induction retries generalizing init with
  | zero =>
    rcases file with _ | sz
    · rfl
    · by_cases h : 1024 < sz
      · simp [sizeCheckLoop, h]
      · simp [sizeCheckLoop, h]
  | succ n ih =>
    rcases file with _ | sz
    · exact ih init
    · by_cases h : 1024 < sz
      · simp [sizeCheckLoop, h]
      · simpa [sizeCheckLoop, h] using ih sz

/-!
## Analysis worker — `main.py`, `process_video_queue`

The remote Analysis Service call and the Semantic Store write are
modelled as explicit outcomes.  One pass of the worker body (lines
159-214) over the head of the queue is embedded; the events broadcast
during the pass are collected in order. -/

/-- Outcome of `video_processor.process_video_sync`: a result dict with
`error = None` and an analysis, a result dict carrying an error string,
or a raised exception. -/
inductive AnalysisOutcome where
  | ok (analysis : PyStr)
  | errResult (err : PyStr)
  | raised (err : PyStr)
  deriving DecidableEq

/-- Outcome of the ChromaDB store step (`get_all_analyses` +
`store_analysis`). -/
inductive StoreOutcome where
  | ok
  | raised (err : PyStr)
  deriving DecidableEq

/-- Events broadcast by the worker for one clip. -/
inductive WorkerEvent where
  | processing_started (clip : PyStr)
  | processing_error (clip : PyStr) (err : PyStr)
  | progress                         -- from on_progress_update("clip_processed")
  | processing_complete (clip : PyStr)
  deriving DecidableEq

/-- main.py lines 162-212: process one clip, returning the events
broadcast in order.  A store failure is caught by the inner
`except` (line 200), which only logs — it broadcasts nothing. -/
def processOneClip (clip : PyStr) (analysis : AnalysisOutcome)
    (store : StoreOutcome) : List WorkerEvent :=
  WorkerEvent.processing_started clip ::
    match analysis with
    | .raised e => [WorkerEvent.processing_error clip e]
    | .errResult e => [WorkerEvent.processing_error clip e]
    | .ok _ =>
      match store with
      | .ok => [WorkerEvent.progress, WorkerEvent.processing_complete clip]
      | .raised _ => []

/-- main.py lines 159-214: one pass of the worker over a non-empty
queue pops the head (`processing_queue.pop(0)`), processes it, and
leaves the tail — the clip is never re-queued. -/
def workerStep (queue : List PyStr) (analysis : AnalysisOutcome)
    (store : StoreOutcome) : List PyStr × List WorkerEvent :=
  match queue with
  | [] => ([], [])
  | clip :: rest => (rest, processOneClip clip analysis store)

/-- The record persisted into the Semantic Store for one clip, if any
(main.py lines 182-192): only on a successful analysis and a successful
store write. -/
def workerRecord (clip : PyStr) (analysis : AnalysisOutcome)
    (store : StoreOutcome) : Option (PyStr × PyStr) :=
  match analysis, store with
  | .ok a, .ok => some (clip, a)
  | _, _ => none

/-- Evaluation of `stopFinalize` over the stable file state. -/
theorem stopFinalize_eval (file : Option Nat) :
    stopFinalize file =
      match file with
      | some sz => if 1024 < sz then .clipReady else .deletedSmall
      | none => .missingFile := by
  have h10 : (10 : Nat) = 9 + 1 := rfl
  rcases file with _ | sz
  · unfold stopFinalize
    rw [h10, sizeCheckLoop_stable]
    simp
  · unfold stopFinalize
    rw [h10, sizeCheckLoop_stable]
    by_cases h : 1024 < sz
    · simp [h]
    · simp [h]

/-- The record persisted for a finished recording file, end to end: a
record exists only if the file became a clip (was handed over via
`clip_ready`), the remote analysis succeeded, and the store write
succeeded. -/
def recordForFile (file : Option Nat) (clip : PyStr)
    (analysis : AnalysisOutcome) (store : StoreOutcome) :
    Option (PyStr × PyStr) :=
  if emitsClipReady file then workerRecord clip analysis store else none

/-- C3: a stopped recording's file becomes a clip and fires `clip_ready`
iff it exists and its size exceeds 1024 bytes; a file at or below that
threshold is deleted (`deletedSmall`), no clip is produced, and no
analysis record is ever created for it. -/
theorem c3_min_size_validation (file : Option Nat) :
    (emitsClipReady file = true ↔ ∃ sz, file = some sz ∧ 1024 < sz)
    ∧ (∀ sz, file = some sz → sz ≤ 1024 →
        stopFinalize file = .deletedSmall
        ∧ emitsClipReady file = false
        ∧ ∀ clip analysis store, recordForFile file clip analysis store = none) := by
  constructor
  · rw [emitsClipReady, stopFinalize_eval]
    rcases file with _ | sz
    · simp
    · by_cases h : 1024 < sz
      · simp [h]
      · simp [h]
  · intro sz hfile hsz
    subst hfile
    have hout : stopFinalize (some sz) = .deletedSmall := by
      rw [stopFinalize_eval]
      simp [Nat.not_lt.mpr hsz]
    have hemit : emitsClipReady (some sz) = false := by
      rw [emitsClipReady, hout]
      decide
    exact ⟨hout, hemit, fun clip analysis store => by
      rw [recordForFile, hemit]
      simp⟩

/-- Witness for `c3_min_size_validation`: a 500-byte file is deleted and
yields no record; a 2000-byte file fires `clip_ready`. -/
theorem c3_min_size_validation_witness :
    ((500 : Nat) ≤ 1024
      ∧ stopFinalize (some 500) = .deletedSmall
      ∧ emitsClipReady (some 500) = false
      ∧ recordForFile (some 500) (pyOf "clip.avi") (.ok (pyOf "a")) .ok = none)
    ∧ (emitsClipReady (some 2000) = true ↔
        ∃ sz, (some 2000 : Option Nat) = some sz ∧ 1024 < sz) :=
  ⟨⟨by decide,
    ((c3_min_size_validation (some 500)).2 500 rfl (by decide)).1,
    ((c3_min_size_validation (some 500)).2 500 rfl (by decide)).2.1,
    ((c3_min_size_validation (some 500)).2 500 rfl (by decide)).2.2
      (pyOf "clip.avi") (.ok (pyOf "a")) .ok⟩,
   (c3_min_size_validation (some 2000)).1⟩

/-- Is an event a `processing_error` broadcast? -/
def isErrorEvent : WorkerEvent → Bool
  | .processing_error _ _ => true
  | _ => false

/-- C4 (counterexample to the claim as stated): on a store-write
failure the inner `except` at main.py line 200 only logs — the worker
broadcasts `processing_started` and then nothing: no `processing_error`
event is emitted for the clip. -/
theorem c4_store_failure_counterexample :
    workerStep [pyOf "clip1.avi", pyOf "clip2.avi"]
      (.ok (pyOf "analysis text")) (.raised (pyOf "chroma down")) =
      ([pyOf "clip2.avi"],
       [WorkerEvent.processing_started (pyOf "clip1.avi")])
    ∧ (workerStep [pyOf "clip1.avi", pyOf "clip2.avi"]
        (.ok (pyOf "analysis text")) (.raised (pyOf "chroma down"))).2.filter
        isErrorEvent = [] := by
  decide

/-- C4 (amended): the worker pops the clip and never re-queues it, and
proceeds with the rest of the queue; a failed remote analysis call —
whether it raises or returns an error result — broadcasts a
`processing_error` event carrying the clip path and error detail; a
store-write failure, however, is caught and only logged: no event at
all follows `processing_started`. -/
theorem c4_failure_handling (clip : PyStr) (rest : List PyStr)
    (analysis : AnalysisOutcome) (store : StoreOutcome) :
    (workerStep (clip :: rest) analysis store).1 = rest
    ∧ (∀ e, analysis = .raised e →
        (workerStep (clip :: rest) analysis store).2 =
          [.processing_started clip, .processing_error clip e])
    ∧ (∀ e, analysis = .errResult e →
        (workerStep (clip :: rest) analysis store).2 =
          [.processing_started clip, .processing_error clip e])
    ∧ (∀ a e, analysis = .ok a → store = .raised e →
        (workerStep (clip :: rest) analysis store).2 =
          [.processing_started clip])
    ∧ (∀ a, analysis = .ok a → store = .ok →
        (workerStep (clip :: rest) analysis store).2 =
          [.processing_started clip, .progress, .processing_complete clip]) := by
  refine ⟨rfl, ?_, ?_, ?_, ?_⟩
  · intro e he
    subst he
    rfl
  · intro e he
    subst he
    rfl
  · intro a e ha hs
    subst ha
    subst hs
    rfl
  · intro a ha hs
    subst ha
    subst hs
    rfl

/-- Witness for `c4_failure_handling`: a raising analysis call emits the
error event; the store-failure case emits nothing after start. -/
theorem c4_failure_handling_witness :
    (workerStep [pyOf "c1"] (.raised (pyOf "timeout")) .ok).1 = []
    ∧ (workerStep [pyOf "c1"] (.raised (pyOf "timeout")) .ok).2 =
      [.processing_started (pyOf "c1"),
       .processing_error (pyOf "c1") (pyOf "timeout")] :=
  ⟨(c4_failure_handling (pyOf "c1") [] (.raised (pyOf "timeout")) .ok).1,
   (c4_failure_handling (pyOf "c1") [] (.raised (pyOf "timeout")) .ok).2.1
     (pyOf "timeout") rfl⟩

/-!
## Recording timer — `camera_service.py`, `_recording_timer`

`_recording_timer` (lines 384-392) polls twice a second:
`while is_recording and (time.time() - start) < duration: sleep(0.5)`,
then calls `_stop_recording()` if the session is still active.  Time is
discretized in tenths of a second: the k-th loop-condition check happens
at elapsed time `k * pollInterval`; `is_recording` at check k is an
arbitrary boolean trace (other stop causes may clear it).  The source
constants are `pollInterval = 5` (0.5 s) and `duration = 160` (16.0 s). -/

/-- The check index at which the timer loop exits, fuel-bounded (fuel
`duration + 1` suffices whenever `pollInterval ≥ 1`). -/
def timerLoop (isRec : Nat → Bool) (pollInterval duration : Nat) :
    Nat → Nat → Nat
  | 0, k => k
  | fuel + 1, k =>
    if isRec k && decide (k * pollInterval < duration) then
      timerLoop isRec pollInterval duration fuel (k + 1)
    else k

/-- The check at which `_recording_timer` leaves its sleep loop. -/
def timerStopTick (isRec : Nat → Bool) (pollInterval duration : Nat) : Nat :=
  timerLoop isRec pollInterval duration (duration + 1) 0

/-- camera_service.py lines 389-390: after the loop, `_stop_recording`
is invoked iff the session is still active. -/
def timerInvokesStop (isRec : Nat → Bool) (pollInterval duration : Nat) : Bool :=
  isRec (timerStopTick isRec pollInterval duration)

/-- Loop invariant for `timerLoop`: if the session stays active, the
loop exits at the first check at or past the duration bound. -/
theorem timerLoop_bounds (isRec : Nat → Bool) (p D : Nat) (_hp : 1 ≤ p)
    (hrec : ∀ j, isRec j = true) :
    ∀ fuel k, D ≤ (k + fuel) * p → k * p < D + p →
      D ≤ (timerLoop isRec p D fuel k) * p
      ∧ (timerLoop isRec p D fuel k) * p < D + p := by
  intro fuel
  induction fuel with
  | zero =>
    intro k h2 h3
    simp only [timerLoop]
    constructor
    · simpa using h2
    · exact h3
  | succ n ih =>
    intro k h2 h3
    by_cases hk : k * p < D
    · have hcond : (isRec k && decide (k * p < D)) = true := by
        rw [hrec k]
        simpa using hk
      simp only [timerLoop]
      rw [if_pos hcond]
      refine ih (k + 1) ?_ ?_
      · have : k + 1 + n = k + (n + 1) := by omega
        rw [this]
        exact h2
      · have : (k + 1) * p = k * p + p := by ring
        omega
    · have hcond : ¬ (isRec k && decide (k * p < D)) = true := by
        rw [hrec k]
        simpa using hk
      simp only [timerLoop]
      rw [if_neg hcond]
      exact ⟨Nat.le_of_not_lt hk, h3⟩

/-- C9: if the session stays active throughout (no other stop cause),
the timer invokes `_stop_recording` at a check whose elapsed time is at
least the maximum duration and strictly less than one poll interval past
it — the session is stopped automatically at the bound, within one
timer-poll interval. -/
theorem c9_timer_stops_at_bound (isRec : Nat → Bool)
    (pollInterval duration : Nat) (hp : 1 ≤ pollInterval)
    (hrec : ∀ j, isRec j = true) :
    duration ≤ (timerStopTick isRec pollInterval duration) * pollInterval
    ∧ (timerStopTick isRec pollInterval duration) * pollInterval <
        duration + pollInterval
    ∧ timerInvokesStop isRec pollInterval duration = true := by
  have h := timerLoop_bounds isRec pollInterval duration hp hrec
    (duration + 1) 0 (by nlinarith) (by omega)
  exact ⟨h.1, h.2, hrec _⟩

/-- Witness for `c9_timer_stops_at_bound` at the source constants: poll
interval 5 tenths of a second, duration 160 tenths (16 s).  The stop
lands at elapsed time exactly 160 tenths — at the bound, within one
poll interval. -/
theorem c9_timer_stops_at_bound_witness :
    ((1 : Nat) ≤ 5 ∧ ∀ j, (fun _ : Nat => true) j = true)
    ∧ (160 : Nat) ≤ (timerStopTick (fun _ : Nat => true) 5 160) * 5
    ∧ (timerStopTick (fun _ : Nat => true) 5 160) * 5 < 160 + 5 :=
  ⟨⟨by decide, fun _ => rfl⟩,
   (c9_timer_stops_at_bound (fun _ : Nat => true) 5 160 (by decide) (fun _ => rfl)).1,
   (c9_timer_stops_at_bound (fun _ : Nat => true) 5 160 (by decide) (fun _ => rfl)).2.1⟩

/- The concrete run: with the source constants the loop exits at check
32, i.e. elapsed 16.0 s exactly. -/
example : timerStopTick (fun _ : Nat => true) 5 160 = 32 := by decide

/-!
## Recording start/stop concurrency — `camera_service.py`

`_start_recording` (lines 306-382) and `_stop_recording` (lines
394-464) run on different threads (motion loop, recording timer, stream
teardown).  Each function takes `recording_lock` only around its
`is_recording` check-and-set; the file/writer operations run outside the
lock (the source comments say "Release lock before file operations").
The model gives each lock-protected block one atomic action and each
unlocked block its own atomic action, and quantifies over thread
interleavings (schedules).  Writers and recording paths carry numeric
ids so that releases and session starts can be counted. -/

/-- The shared `CameraService` recording state. -/
structure RecState where
  is_recording : Bool
  recording_writer : Option Nat
  current_recording_path : Option Nat
  released : List Nat      -- writer ids released so far, in order
  started : List Nat       -- path ids whose session opened a writer
  finalized : List Nat     -- path ids validated after a stop
  nextId : Nat
  deriving DecidableEq

/-- Program counter of one `_stop_recording` invocation:
`lockCheck` = lines 396-401 (locked check-and-clear of `is_recording`,
saving `current_recording_path`); `releaseWriter` = lines 405-410;
`finalizeFile` = lines 412-459 (validation / hand-over / deletion);
`clearState` = lines 462-464 (locked clearing of path and start time). -/
inductive StopPc where
  | lockCheck
  | releaseWriter
  | finalizeFile
  | clearState
  | halted
  deriving DecidableEq

/-- One `_stop_recording` invocation: program counter plus the local
`saved_path`. -/
structure StopThread where
  pc : StopPc
  saved : Option Nat
  deriving DecidableEq

/-- One atomic action of `_stop_recording`. -/
def stopStep (g : RecState) (t : StopThread) : RecState × StopThread :=
  match t.pc with
  | .lockCheck =>
    if g.is_recording then
      ({ g with is_recording := false },
       ⟨.releaseWriter, g.current_recording_path⟩)
    else
      (g, ⟨.halted, t.saved⟩)        -- early return: not recording
  | .releaseWriter =>
    match g.recording_writer with
    | some w =>
      ({ g with recording_writer := none, released := g.released ++ [w] },
       ⟨.finalizeFile, t.saved⟩)
    | none => (g, ⟨.finalizeFile, t.saved⟩)
  | .finalizeFile =>
    match t.saved with
    | some p => ({ g with finalized := g.finalized ++ [p] }, ⟨.clearState, t.saved⟩)
    | none => (g, ⟨.clearState, t.saved⟩)
  | .clearState =>
    ({ g with current_recording_path := none }, ⟨.halted, t.saved⟩)
  | .halted => (g, t)

/-- Program counter of one `_start_recording` invocation (success path):
`lockCheckSet` = lines 308-318 (locked check-and-set of `is_recording`);
`pickPath` = lines 321-322 (new timestamped output path); `openWriter` =
lines 325-369 (frame read, writer creation, start time). -/
inductive StartPc where
  | lockCheckSet
  | pickPath
  | openWriter
  | halted
  deriving DecidableEq

/-- One atomic action of `_start_recording` (success path). -/
def startStep (g : RecState) (pc : StartPc) : RecState × StartPc :=
  match pc with
  | .lockCheckSet =>
    if g.is_recording then (g, .halted)   -- early return: already recording
    else ({ g with is_recording := true }, .pickPath)
  | .pickPath =>
    ({ g with current_recording_path := some g.nextId, nextId := g.nextId + 1 },
     .openWriter)
  | .openWriter =>
    let g' := { g with recording_writer := some g.nextId }
    let g'' := { g' with started := g.started ++ [g.current_recording_path.getD 0] }
    ({ g'' with nextId := g.nextId + 1 }, .halted)
  | .halted => (g, pc)

/-- A stop invocation racing a start invocation. -/
structure RaceConfig where
  g : RecState
  stopT : StopThread
  startPc : StartPc
  deriving DecidableEq

/-- One scheduler step: `true` runs the stop thread, `false` the start
thread. -/
def raceStep (c : RaceConfig) (pickStop : Bool) : RaceConfig :=
  if pickStop then
    let r := stopStep c.g c.stopT
    ⟨r.1, r.2, c.startPc⟩
  else
    let r := startStep c.g c.startPc
    ⟨r.1, c.stopT, r.2⟩

/-- Run a schedule. -/
def raceRun (c : RaceConfig) : List Bool → RaceConfig
  | [] => c
  | b :: rest => raceRun (raceStep c b) rest

/-- Recording state with one active session (path 0, writer 100). -/
def recActive : RecState := ⟨true, some 100, some 0, [], [0], [], 1⟩

/-- C2 (counterexample to the claim as stated): session-mutating work is
NOT fully serialized under the recording lock — `_stop_recording` clears
`is_recording` under the lock and then finalizes outside it, so under
the schedule stop-lock, start-lock, start-path, start-writer a second
session starts (its writer opens, `started = [0, 1]`) while the first
session's stop has neither released the old writer nor validated the
file (`released = []`, `finalized = []`). -/
theorem c2_second_session_before_finalize_counterexample :
    (raceRun ⟨recActive, ⟨.lockCheck, none⟩, .lockCheckSet⟩
      [true, false, false, false]).g.started = [0, 1]
    ∧ (raceRun ⟨recActive, ⟨.lockCheck, none⟩, .lockCheckSet⟩
        [true, false, false, false]).g.finalized = []
    ∧ (raceRun ⟨recActive, ⟨.lockCheck, none⟩, .lockCheckSet⟩
        [true, false, false, false]).g.released = []
    ∧ (raceRun ⟨recActive, ⟨.lockCheck, none⟩, .lockCheckSet⟩
        [true, false, false, false]).stopT.pc = .releaseWriter := by
  decide

/-- Two concurrent `_stop_recording` invocations (e.g. the timer-driven
stop of `_recording_timer` and the teardown stop of `stop_stream`)
racing over the recording state. -/
structure StopsConfig where
  g : RecState
  t1 : StopThread
  t2 : StopThread
  deriving DecidableEq

/-- One scheduler step: `true` runs the first stop invocation, `false`
the second. -/
def stopsStep (c : StopsConfig) (pickFirst : Bool) : StopsConfig :=
  if pickFirst then
    let r := stopStep c.g c.t1
    ⟨r.1, r.2, c.t2⟩
  else
    let r := stopStep c.g c.t2
    ⟨r.1, c.t1, r.2⟩

/-- Run a schedule. -/
def stopsRun (c : StopsConfig) : List Bool → StopsConfig
  | [] => c
  | b :: rest => stopsRun (stopsStep c b) rest

/-- 1 when the invocation is about to release the writer. -/
def relCount (t : StopThread) : Nat :=
  if t.pc = .releaseWriter then 1 else 0

/-- Invariant: while recording is active no writer has been released
and both stop invocations still face their locked check; at all times
the number of performed releases plus the number of invocations about
to release is at most one. -/
def StopsInv (c : StopsConfig) : Prop :=
  (c.g.is_recording = true →
    (c.g.released = [] ∧ c.t1.pc = .lockCheck ∧ c.t2.pc = .lockCheck))
  ∧ c.g.released.length + relCount c.t1 + relCount c.t2 ≤ 1

/-- The invariant is preserved by one `_stop_recording` action of one of
the two invocations. -/
theorem stopStep_preserves_inv (g : RecState) (t other : StopThread)
    (hrec : g.is_recording = true →
      (g.released = [] ∧ t.pc = .lockCheck ∧ other.pc = .lockCheck))
    (hsum : g.released.length + relCount t + relCount other ≤ 1) :
    ((stopStep g t).1.is_recording = true →
      ((stopStep g t).1.released = [] ∧ (stopStep g t).2.pc = .lockCheck
        ∧ other.pc = .lockCheck))
    ∧ (stopStep g t).1.released.length + relCount (stopStep g t).2
        + relCount other ≤ 1 := by
  rcases t with ⟨pc, saved⟩
  cases pc with
  | lockCheck =>
    by_cases hg : g.is_recording = true
    · obtain ⟨hrel, -, hother⟩ := hrec hg
      simp only [stopStep, hg, if_true]
      constructor
      · intro hcontra
        simp at hcontra
      · simp [relCount, hrel, hother]
    · have hg' : g.is_recording = false := by
        revert hg
        cases g.is_recording <;> simp
      simp only [stopStep, hg', Bool.false_eq_true, if_false]
      refine ⟨fun hcontra => by simp_all, ?_⟩
      simp only [relCount] at hsum ⊢
      simp at hsum ⊢
      omega
  | releaseWriter =>
    have hg : g.is_recording = false := by
      by_contra hne
      have := (hrec (by revert hne; cases g.is_recording <;> simp)).2.1
      simp at this
    rcases hw : g.recording_writer with _ | w
    · simp only [stopStep, hw]
      refine ⟨fun hcontra => by simp_all, ?_⟩
      simp only [relCount] at hsum ⊢
      simp at hsum ⊢
      omega
    · simp only [stopStep, hw]
      refine ⟨fun hcontra => by simp_all, ?_⟩
      simp only [relCount, List.length_append] at hsum ⊢
      simp at hsum ⊢
      omega
  | finalizeFile =>
    have hg : g.is_recording = false := by
      by_contra hne
      have := (hrec (by revert hne; cases g.is_recording <;> simp)).2.1
      simp at this
    rcases hs : saved with _ | p
    · simp only [stopStep]
      refine ⟨fun hcontra => by simp_all, ?_⟩
      simp only [relCount] at hsum ⊢
      simp at hsum ⊢
      omega
    · simp only [stopStep]
      refine ⟨fun hcontra => by simp_all, ?_⟩
      simp only [relCount] at hsum ⊢
      simp at hsum ⊢
      omega
  | clearState =>
    have hg : g.is_recording = false := by
      by_contra hne
      have := (hrec (by revert hne; cases g.is_recording <;> simp)).2.1
      simp at this
    simp only [stopStep]
    refine ⟨fun hcontra => by simp_all, ?_⟩
    simp only [relCount] at hsum ⊢
    simp at hsum ⊢
    omega
  | halted =>
    simp only [stopStep]
    exact ⟨fun hg => ⟨(hrec hg).1, (hrec hg).2.1, (hrec hg).2.2⟩, hsum⟩

/-- The invariant is preserved by any schedule. -/
theorem stopsRun_inv (sched : List Bool) :
    ∀ c, StopsInv c → StopsInv (stopsRun c sched) := by
  induction sched with
  | nil => intro c h; exact h
  | cons b rest ih =>
    intro c h
    refine ih (stopsStep c b) ?_
    rcases c with ⟨g, t1, t2⟩
    obtain ⟨hrec, hsum⟩ := h
    cases b with
    | true =>
      have hp := stopStep_preserves_inv g t1 t2
        (fun hg => ⟨(hrec hg).1, (hrec hg).2.1, (hrec hg).2.2⟩)
        (by simpa using hsum)
      refine ⟨fun hg => ⟨(hp.1 hg).1, (hp.1 hg).2.1, (hp.1 hg).2.2⟩, ?_⟩
      · simpa [stopsStep] using hp.2
    | false =>
      have hp := stopStep_preserves_inv g t2 t1
        (fun hg => ⟨(hrec hg).1, (hrec hg).2.2, (hrec hg).2.1⟩)
        (by simp only [StopsInv] at hsum ⊢; omega)
      refine ⟨fun hg => ⟨(hp.1 hg).1, (hp.1 hg).2.2, (hp.1 hg).2.1⟩, ?_⟩
      · have := hp.2
        simp only [StopsInv] at this
        simp [stopsStep]
        omega

/-- C2 (amended): the locked `is_recording` check-and-clear serializes
the stop decision — under every interleaving of two concurrent
`_stop_recording` invocations over an active session, at most one
release of the writer is ever performed; a motion/teardown-driven stop
and a timer-driven stop can never both release the same writer. -/
theorem c2_stop_release_serialized (sched : List Bool) :
    ((stopsRun ⟨recActive, ⟨.lockCheck, none⟩, ⟨.lockCheck, none⟩⟩
      sched).g.released).length ≤ 1 := by
  have h := stopsRun_inv sched ⟨recActive, ⟨.lockCheck, none⟩, ⟨.lockCheck, none⟩⟩
    (by constructor
        · intro _
          exact ⟨rfl, rfl, rfl⟩
        · decide)
  have hs := h.2
  omega
